import Mathlib

/-!
Shallow embedding of the tabular-playground-series notebooks.

The repository consists of Jupyter notebooks.  Pandas `DataFrame`s are
modelled as ordered association lists of named columns; a column carries
its values (as exact rationals, the idealisation of the float64 payload)
together with the one bit of dtype information the code ever inspects,
namely whether `dtype.name.startswith("int")` holds.  Library numerical
kernels that have no exact rational counterpart (`np.sin`, `np.sqrt`) are
passed in as function parameters.  The cross-validation harnesses are
modelled as folds over the list of fold indices, with the per-fold
`clone`/`fit`/`predict` pipeline abstracted into function parameters.
-/

namespace TPS

/-- A pandas column: the dtype bit the notebooks test
(`dtype.name.startswith("int")`) plus the cell values. -/
structure Column where
  isInt : Bool
  values : List ℚ
deriving DecidableEq, Repr

/-- A pandas DataFrame: an ordered association list of named columns. -/
abbrev DataFrame := List (String × Column)

/-- Lookup of `df[name]`, `none` when the key is missing (KeyError). -/
def getCol (df : DataFrame) (name : String) : Option Column :=
  (df.find? (fun p => p.1 == name)).map (fun p => p.2)

/-- Total lookup used inside the feature functions (the notebooks only
apply them to frames that contain the accessed columns). -/
def col (df : DataFrame) (name : String) : Column :=
  (getCol df name).getD ⟨false, []⟩

/-- Whether a column of this name exists. -/
def hasCol (df : DataFrame) (name : String) : Bool :=
  df.any (fun p => p.1 == name)

/-- Assignment `df[name] = c`: replace in place when the key exists,
append at the end otherwise (pandas `__setitem__`). -/
def setCol (df : DataFrame) (name : String) (c : Column) : DataFrame :=
  if hasCol df name then
    df.map (fun p => if p.1 == name then (name, c) else p)
  else
    df ++ [(name, c)]

/-! ### List-level numerical helpers (pandas/scipy row kernels) -/

/-- Minimum of a series (`Series.min`); junk value 0 on the empty series,
which pandas renders as NaN. -/
def listMin (l : List ℚ) : ℚ :=
  match l with
  | [] => 0
  | x :: xs => xs.foldl min x

/-- Maximum of a series (`Series.max`); junk value 0 on the empty series. -/
def listMax (l : List ℚ) : ℚ :=
  match l with
  | [] => 0
  | x :: xs => xs.foldl max x

/-- Arithmetic mean (`Series.mean`); division by zero yields the junk 0. -/
def listMean (l : List ℚ) : ℚ := l.sum / (l.length : ℚ)

/-- Median as computed by pandas/numpy: middle element of the sorted list,
or the average of the two middle elements for an even length. -/
def listMedian (l : List ℚ) : ℚ :=
  let s := List.insertionSort (fun a b => a ≤ b) l
  let nn := s.length
  if nn = 0 then 0
  else if nn % 2 = 1 then s.getD (nn / 2) 0
  else (s.getD (nn / 2 - 1) 0 + s.getD (nn / 2) 0) / 2

/-- Sample variance, `ddof = 1` (pandas `.std`/`.var` default). -/
def listVarS (l : List ℚ) : ℚ :=
  ((l.map (fun v => (v - listMean l) ^ 2)).sum) / ((l.length : ℚ) - 1)

/-- Population variance, `ddof = 0` (`scipy.stats.zscore` default). -/
def listVarP (l : List ℚ) : ℚ :=
  ((l.map (fun v => (v - listMean l) ^ 2)).sum) / (l.length : ℚ)

/-- Sample standard deviation; the square root has no rational counterpart
and is supplied as the parameter `sqrtFn`. -/
def listStd (sqrtFn : ℚ → ℚ) (l : List ℚ) : ℚ := sqrtFn (listVarS l)

/-- Pandas `.skew`: adjusted Fisher-Pearson coefficient
`n/((n-1)(n-2)) * sum(((x-mean)/s)^3)` with `s` the sample std. -/
def listSkew (sqrtFn : ℚ → ℚ) (l : List ℚ) : ℚ :=
  let n : ℚ := (l.length : ℚ)
  let m := listMean l
  let s := listStd sqrtFn l
  (n / ((n - 1) * (n - 2))) * (l.map (fun v => ((v - m) / s) ^ 3)).sum

/-- `scipy.stats.median_abs_deviation` with its default `scale = 1`. -/
def listMAD (l : List ℚ) : ℚ := listMedian (l.map (fun v => |v - listMedian l|))

/-- Exact `np.sign`. -/
def sign (q : ℚ) : ℚ := if q < 0 then -1 else if q = 0 then 0 else 1

/-- Python `%` on numbers: `a - b * floor(a / b)` (sign of the divisor). -/
def qmod (a b : ℚ) : ℚ := a - b * (⌊a / b⌋ : ℚ)

/-! ### Column-level operations -/

/-- Elementwise map preserving the dtype (e.g. `series - 180` on ints). -/
def colMap (f : ℚ → ℚ) (c : Column) : Column := ⟨c.isInt, c.values.map f⟩

/-- Elementwise map returning a float column (e.g. `apply(np.sin)`). -/
def colMapF (f : ℚ → ℚ) (c : Column) : Column := ⟨false, c.values.map f⟩

/-- Aligned binary arithmetic on two series; integer dtype survives only
when both operands are integer. -/
def colZip (f : ℚ → ℚ → ℚ) (a b : Column) : Column :=
  ⟨a.isInt && b.isInt, List.zipWith f a.values b.values⟩

/-- The value-level model of `astype`: the cast retags the dtype and, in
this exact-rational idealisation, keeps every cell value. -/
def astype (b : Bool) (c : Column) : Column := ⟨b, c.values⟩

/-- `series.clip(lower, upper)`. -/
def colClip (lo hi : ℚ) (c : Column) : Column :=
  ⟨c.isInt, c.values.map (fun v => max lo (min v hi))⟩

/-- Helper `start_at_eps(series, eps=1e-10)`:
`series - series.min() + eps`. -/
def start_at_eps (l : List ℚ) (eps : ℚ := 1 / 10000000000) : List ℚ :=
  l.map (fun v => v - listMin l + eps)

/-- Length of the column selection `df[names]`: the length of the first
selected column (all columns of a real frame are aligned). -/
def selLen (df : DataFrame) (names : List String) : ℕ :=
  (names.head?.map (fun n => (col df n).values.length)).getD 0

/-- Row-wise aggregation `df[names].g(axis=1)`. -/
def rowAgg (g : List ℚ → ℚ) (df : DataFrame) (names : List String) : List ℚ :=
  (List.range (selLen df names)).map
    (fun r => g (names.map (fun n => (col df n).values.getD r 0)))

/-- Whether all selected columns carry an integer dtype. -/
def allInt (df : DataFrame) (names : List String) : Bool :=
  names.all (fun n => (col df n).isInt)

/-- Model of `np.abs(stats.zscore(df[names])).sum(axis=1)`: `zscore` is
columnwise (mean and `ddof = 0` std of each column), the absolute values
are then summed across the row. -/
def zscoreSums (sqrtFn : ℚ → ℚ) (df : DataFrame) (names : List String) : List ℚ :=
  (List.range (selLen df names)).map
    (fun r =>
      (names.map (fun n =>
        |(((col df n).values.getD r 0) - listMean (col df n).values)
          / sqrtFn (listVarP (col df n).values)|)).sum)

/-- Value of a column at row `r` (0 when out of range). -/
def rowVal (c : Column) (r : ℕ) : ℚ := c.values.getD r 0

/-- Names of the integer-dtyped columns, in frame order. -/
def intColNames (df : DataFrame) : List String :=
  (df.filter (fun p => p.2.isInt)).map (fun p => p.1)

/-- Names of the non-integer-dtyped columns, in frame order. -/
def contColNames (df : DataFrame) : List String :=
  (df.filter (fun p => !p.2.isInt)).map (fun p => p.1)

/-! ### Feature-engineering functions (TPS 12/21 notebooks) -/

/-- Transcription of `aspect_features`.  `np.pi` and `np.sin` have no
rational counterpart and are the parameters `piQ` and `sinFn`.
`Series.where(cond, other)` keeps the value where `cond` holds, hence the
pointwise conditional for `Aspect_Alt`. -/
def aspect_features (sinFn : ℚ → ℚ) (piQ : ℚ) (data : DataFrame) : DataFrame :=
  let df := data
  let df1 := setCol df "Aspect_360" (colMap (fun a => qmod a 360) (col df "Aspect"))
  let df2 := setCol df1 "Aspect_Sine"
    ⟨false, (col df1 "Aspect").values.map (fun a => sinFn (a * piQ / 180))⟩
  let df3 := setCol df2 "Aspect_Alt"
    (colMap (fun a => if a + 180 > 360 then a - 180 else a + 180) (col df2 "Aspect"))
  df3

/-- Transcription of `hillshade_features`.  Note that all three `_Clipped`
columns are computed from `Hillshade_9am` in the source. -/
def hillshade_features (data : DataFrame) : DataFrame :=
  let df := data
  let shade := ["Hillshade_9am", "Hillshade_Noon", "Hillshade_3pm"]
  let df1 := setCol df "Hillshade_9am_Clipped" (colClip 0 255 (col df "Hillshade_9am"))
  let df2 := setCol df1 "Hillshade_Noon_Clipped" (colClip 0 255 (col df1 "Hillshade_9am"))
  let df3 := setCol df2 "Hillshade_3pm_Clipped" (colClip 0 255 (col df2 "Hillshade_9am"))
  let df4 := setCol df3 "Hillshade_Sum" ⟨allInt df3 shade, rowAgg List.sum df3 shade⟩
  let df5 := setCol df4 "Hillshade_Range"
    ⟨allInt df4 shade,
      List.zipWith (fun a b => a - b) (rowAgg listMax df4 shade) (rowAgg listMin df4 shade)⟩
  df5

/-- Transcription of `water_features`.  The two hydrology distance columns
are recast to float64, used to build the derived columns, and finally the
block of `astype('float32')` statements retags eight columns.  `np.sqrt`
and `** 0.5` are both modelled by the parameter `sqrtFn`; the `.rename`
of the `Hydro_Taxicab_Pos` series does not affect the stored column. -/
def water_features (sqrtFn : ℚ → ℚ) (data : DataFrame) : DataFrame :=
  let df := data
  let df1 := setCol df "Horizontal_Distance_To_Hydrology"
    (astype false (col df "Horizontal_Distance_To_Hydrology"))
  let df2 := setCol df1 "Vertical_Distance_To_Hydrology"
    (astype false (col df1 "Vertical_Distance_To_Hydrology"))
  let posH := start_at_eps (col df2 "Horizontal_Distance_To_Hydrology").values
  let posV := start_at_eps (col df2 "Vertical_Distance_To_Hydrology").values
  let df3 := setCol df2 "Hydro_Taxicab"
    (colZip (fun a b => |a| + |b|) (col df2 "Horizontal_Distance_To_Hydrology")
      (col df2 "Vertical_Distance_To_Hydrology"))
  let df4 := setCol df3 "Hydro_Taxicab_Pos"
    (astype false ⟨false, (List.zipWith (fun a b => a ^ 2 + b ^ 2) posH posV).map sqrtFn⟩)
  let df5 := setCol df4 "Hydro_Euclid"
    (colMapF sqrtFn
      (colZip (fun a b => a ^ 2 + |b| ^ 2) (col df4 "Horizontal_Distance_To_Hydrology")
        (col df4 "Vertical_Distance_To_Hydrology")))
  let df6 := setCol df5 "Hydro_Euclid_Pos"
    ⟨false, (List.zipWith (fun a b => a ^ 2 + b ^ 2) posH posV).map sqrtFn⟩
  let df7 := setCol df6 "Water_Direction"
    (colMapF sign (col df6 "Vertical_Distance_To_Hydrology"))
  let df8 := setCol df7 "Water Elevation"
    (colZip (fun a b => a - b) (col df7 "Elevation") (col df7 "Vertical_Distance_To_Hydrology"))
  let df9 := setCol df8 "Horizontal_Distance_To_Hydrology"
    (astype false (col df8 "Horizontal_Distance_To_Hydrology"))
  let df10 := setCol df9 "Vertical_Distance_To_Hydrology"
    (astype false (col df9 "Vertical_Distance_To_Hydrology"))
  let df11 := setCol df10 "Hydro_Taxicab" (astype false (col df10 "Hydro_Taxicab"))
  let df12 := setCol df11 "Hydro_Taxicab_Pos" (astype false (col df11 "Hydro_Taxicab_Pos"))
  let df13 := setCol df12 "Hydro_Euclid" (astype false (col df12 "Hydro_Euclid"))
  let df14 := setCol df13 "Hydro_Euclid_Pos" (astype false (col df13 "Hydro_Euclid_Pos"))
  let df15 := setCol df14 "Water_Direction" (astype false (col df14 "Water_Direction"))
  let df16 := setCol df15 "Water Elevation" (astype false (col df15 "Water Elevation"))
  df16

/-- Transcription of `count_features`: row sums of the `Soil_Type*` and
`Wilderness_Area*` one-hot blocks. -/
def count_features (data : DataFrame) : DataFrame :=
  let df := data
  let soil := (df.map (fun p => p.1)).filter (fun n => n.startsWith "Soil_Type")
  let wild := (df.map (fun p => p.1)).filter (fun n => n.startsWith "Wilderness_Area")
  let df1 := setCol df "Soil_Count" ⟨allInt df soil, rowAgg List.sum df soil⟩
  let df2 := setCol df1 "Wilderness_Count" ⟨allInt df1 wild, rowAgg List.sum df1 wild⟩
  df2

/-- Transcription of `hydrofire_interactions`. -/
def hydrofire_interactions (data : DataFrame) : DataFrame :=
  let df := data
  let df1 := setCol df "Hydro_Fire_Sum"
    (colZip (fun a b => a + b) (col df "Horizontal_Distance_To_Hydrology")
      (col df "Horizontal_Distance_To_Fire_Points"))
  let df2 := setCol df1 "Hydro_Fire_AbsDiff"
    (colZip (fun a b => |a - b|) (col df1 "Horizontal_Distance_To_Hydrology")
      (col df1 "Horizontal_Distance_To_Fire_Points"))
  let df3 := setCol df2 "Hydro_Fire_EpsSum"
    ⟨false,
      List.zipWith (fun a b => a + b)
        (start_at_eps (col df2 "Horizontal_Distance_To_Hydrology").values)
        (start_at_eps (col df2 "Horizontal_Distance_To_Fire_Points").values)⟩
  let df4 := setCol df3 "Hydro_Fire_Diff"
    (colZip (fun a b => a - b) (col df3 "Horizontal_Distance_To_Hydrology")
      (col df3 "Horizontal_Distance_To_Fire_Points"))
  df4

/-- Transcription of `roadway_interactions`. -/
def roadway_interactions (data : DataFrame) : DataFrame :=
  let df := data
  let df1 := setCol df "Hydro_Road_1"
    (colZip (fun a b => |a + b|) (col df "Horizontal_Distance_To_Hydrology")
      (col df "Horizontal_Distance_To_Roadways"))
  let df2 := setCol df1 "Hydro_Road_2"
    (colZip (fun a b => |a - b|) (col df1 "Horizontal_Distance_To_Hydrology")
      (col df1 "Horizontal_Distance_To_Roadways"))
  let df3 := setCol df2 "Fire_Road_1"
    (colZip (fun a b => |a + b|) (col df2 "Horizontal_Distance_To_Fire_Points")
      (col df2 "Horizontal_Distance_To_Roadways"))
  let df4 := setCol df3 "Fire_Road_2"
    (colZip (fun a b => |a - b|) (col df3 "Horizontal_Distance_To_Fire_Points")
      (col df3 "Horizontal_Distance_To_Roadways"))
  df4

/-- Transcription of `elevation_interactions` (`0.2` is exact here). -/
def elevation_interactions (data : DataFrame) : DataFrame :=
  let df := data
  let df1 := setCol df "Road_Elev_Int"
    (colZip (fun a b => a * b) (col df "Horizontal_Distance_To_Roadways") (col df "Elevation"))
  let df2 := setCol df1 "VHydro_Elev_Int"
    (colZip (fun a b => a * b) (col df1 "Vertical_Distance_To_Hydrology") (col df1 "Elevation"))
  let df3 := setCol df2 "Elev_VHydro_Diff"
    (colZip (fun a b => a - b) (col df2 "Elevation") (col df2 "Vertical_Distance_To_Hydrology"))
  let df4 := setCol df3 "Elev_HHydro_Diff"
    (colZip (fun a b => a - b * (2 / 10)) (col df3 "Elevation")
      (col df3 "Horizontal_Distance_To_Hydrology"))
  df4

/-- Transcription of `create_row_stats` (TPS 11/21 feature-engineering
notebook): the columns are split on `dtype.name.startswith("int")`, the
row statistics are computed from the original `data`, and the result is a
copy of `data` extended with the ten statistic columns. -/
def create_row_stats (sqrtFn : ℚ → ℚ) (data : DataFrame) : DataFrame :=
  let cat_cols := intColNames data
  let cont_cols := contColNames data
  let nd := data
  let nd := setCol nd "binary_count" ⟨true, rowAgg List.sum data cat_cols⟩
  let nd := setCol nd "binary_std" ⟨false, rowAgg (listStd sqrtFn) data cat_cols⟩
  let nd := setCol nd "min" ⟨false, rowAgg listMin data cont_cols⟩
  let nd := setCol nd "std" ⟨false, rowAgg (listStd sqrtFn) data cont_cols⟩
  let nd := setCol nd "max" ⟨false, rowAgg listMax data cont_cols⟩
  let nd := setCol nd "median" ⟨false, rowAgg listMedian data cont_cols⟩
  let nd := setCol nd "mean" ⟨false, rowAgg listMean data cont_cols⟩
  let nd := setCol nd "skew" ⟨false, rowAgg (listSkew sqrtFn) data cont_cols⟩
  let nd := setCol nd "median_abs_dev" ⟨false, rowAgg listMAD data cont_cols⟩
  let nd := setCol nd "zscore" ⟨false, zscoreSums sqrtFn data cont_cols⟩
  nd

/-- The ten column names assigned by `create_row_stats`. -/
def rowStatNames : List String :=
  ["binary_count", "binary_std", "min", "std", "max", "median", "mean",
   "skew", "median_abs_dev", "zscore"]

/-- Transcription of `remove_uninformative` (TPS 12/21 feature-engineering
notebook).  `mutual_info_classif` is third-party library code and is
abstracted into the parameter `scores`; the function then drops from all
three frames every column whose score is zero. -/
def remove_uninformative (scores : String → ℚ) (Xtrain Xvalid Xtest : DataFrame) :
    DataFrame × DataFrame × DataFrame :=
  let cols := (Xtrain.map (fun p => p.1)).filter (fun n => scores n == 0)
  (Xtrain.filter (fun p => !(cols.contains p.1)),
   Xvalid.filter (fun p => !(cols.contains p.1)),
   Xtest.filter (fun p => !(cols.contains p.1)))

/-! ### Value-level view of a frame (column names and cell values, dtypes
forgotten), used to state which functions are blind to dtypes -/

/-- Forget the dtype tags: the observable numeric content of a frame. -/
def stripD (df : DataFrame) : List (String × List ℚ) :=
  df.map (fun p => (p.1, p.2.values))

/-- Value-level lookup. -/
def colV (df : List (String × List ℚ)) (name : String) : List ℚ :=
  ((df.find? (fun p => p.1 == name)).map (fun p => p.2)).getD []

/-- Value-level key test. -/
def hasColV (df : List (String × List ℚ)) (name : String) : Bool :=
  df.any (fun p => p.1 == name)

/-- Value-level assignment. -/
def setColV (df : List (String × List ℚ)) (name : String) (vs : List ℚ) :
    List (String × List ℚ) :=
  if hasColV df name then
    df.map (fun p => if p.1 == name then (name, vs) else p)
  else
    df ++ [(name, vs)]

/-- Value-level selection length. -/
def selLenV (df : List (String × List ℚ)) (names : List String) : ℕ :=
  (names.head?.map (fun n => (colV df n).length)).getD 0

/-- Value-level row aggregation. -/
def rowAggV (g : List ℚ → ℚ) (df : List (String × List ℚ)) (names : List String) :
    List ℚ :=
  (List.range (selLenV df names)).map
    (fun r => g (names.map (fun n => (colV df n).getD r 0)))

/-! ### The stratified k-fold split and the cross-validation harnesses -/

/-- Modelled from the spec: `sklearn.model_selection.StratifiedKFold.split`
is third-party library code; per the spec's "fold index assignment is
disjoint and covers all rows", the split is modelled by an arbitrary total
assignment `a` of a fold index to every training row, the fold `f`
validation set being the rows assigned to `f`. -/
def validIdx (k n : ℕ) (a : Fin n → Fin k) (f : Fin k) : List (Fin n) :=
  (List.finRange n).filter (fun i => decide (a i = f))

/-- Modelled from the spec: the fold `f` training set handed to
`model.fit` is the complement of the fold `f` validation set. -/
def trainIdx (k n : ℕ) (a : Fin n → Fin k) (f : Fin k) : List (Fin n) :=
  (List.finRange n).filter (fun i => decide (a i ≠ f))

/-- State threaded through the `train_model` fold loop of the 11/21 noisy-
labels notebook: the out-of-fold array, an instrumentation counter of how
many folds wrote each entry, and the accumulated test predictions. -/
structure TrainState (n m : ℕ) where
  oof : Fin n → ℚ
  writes : Fin n → ℕ
  testPreds : Fin m → ℚ

/-- One fold of `train_model`/`train_noisy_model` (and of `score_lightgbm`
and Notebook 8's `score_model`, which accumulate the same way): clone and
fit a fresh model on the fold's training rows, write the validation
predictions into the out-of-fold slots of this fold's validation rows, and
add `predict_proba(X_test)[:, 1] / NUM_FOLDS` to the test accumulator.
The library estimator is abstracted into `fit`/`predictValid`/
`predictTest`. -/
def train_model_step {M : Type} (k n m : ℕ) (a : Fin n → Fin k)
    (fit : List (Fin n) → M) (predictValid : M → Fin n → ℚ)
    (predictTest : M → Fin m → ℚ) (s : TrainState n m) (f : Fin k) :
    TrainState n m :=
  let model := fit (trainIdx k n a f)
  { oof := fun i => if a i = f then predictValid model i else s.oof i
    writes := fun i => if a i = f then s.writes i + 1 else s.writes i
    testPreds := fun j => s.testPreds j + predictTest model j / (k : ℚ) }

/-- The `train_model` fold loop, starting from the `np.zeros` arrays. -/
def train_model {M : Type} (k n m : ℕ) (a : Fin n → Fin k)
    (fit : List (Fin n) → M) (predictValid : M → Fin n → ℚ)
    (predictTest : M → Fin m → ℚ) : TrainState n m :=
  (List.finRange k).foldl (train_model_step k n m a fit predictValid predictTest)
    ⟨fun _ => 0, fun _ => 0, fun _ => 0⟩

/-- State threaded through the `score_features` fold loop of the 12/21
feature-engineering notebooks; the test accumulator keeps one column per
class (`np.zeros((len(test), 6))`). -/
structure ScoreState (n m c : ℕ) where
  oof : Fin n → ℚ
  writes : Fin n → ℕ
  testPreds : Fin m → Fin c → ℚ

/-- One fold of `score_features`: as in `train_model`, except that the
out-of-fold entries receive `model.predict` labels and the per-class test
probabilities are accumulated WITHOUT the `/ NUM_FOLDS` factor. -/
def score_features_step {M : Type} (k n m c : ℕ) (a : Fin n → Fin k)
    (fit : List (Fin n) → M) (predictValid : M → Fin n → ℚ)
    (predictProba : M → Fin m → Fin c → ℚ) (s : ScoreState n m c) (f : Fin k) :
    ScoreState n m c :=
  let model := fit (trainIdx k n a f)
  { oof := fun i => if a i = f then predictValid model i else s.oof i
    writes := fun i => if a i = f then s.writes i + 1 else s.writes i
    testPreds := fun j cl => s.testPreds j cl + predictProba model j cl }

/-- The `score_features` fold loop, starting from the `np.zeros` arrays. -/
def score_features {M : Type} (k n m c : ℕ) (a : Fin n → Fin k)
    (fit : List (Fin n) → M) (predictValid : M → Fin n → ℚ)
    (predictProba : M → Fin m → Fin c → ℚ) : ScoreState n m c :=
  (List.finRange k).foldl (score_features_step k n m c a fit predictValid predictProba)
    ⟨fun _ => 0, fun _ => 0, fun _ => 0⟩

/-! ### Notebook 8 (TPS 02/22) histogram gcd -/

/-- A frame of integer histogram counts (`get_histograms` output). -/
abbrev NatFrame := List (String × List ℕ)

/-- Lookup in a `NatFrame`. -/
def natCol (df : NatFrame) (name : String) : List ℕ :=
  ((df.find? (fun p => p.1 == name)).map (fun p => p.2)).getD []

/-- Transcription of `gcd_of_all`: start from the first feature column and
left-fold `np.gcd` over the remaining ones; `none` models the IndexError
on an empty feature list. -/
def gcd_of_all (features : List String) (df : NatFrame) : Option (List ℕ) :=
  match features with
  | [] => none
  | f0 :: rest =>
    some (rest.foldl (fun g c => List.zipWith Nat.gcd g (natCol df c)) (natCol df f0))

/-! ### Submission-file effects of the notebooks -/

/-- The observable artefact behaviour of one notebook: whether its
modelling runs under a `StratifiedKFold` loop, and the list of `.to_csv`
submission paths it executes (f-strings resolved with the notebook's
constants; the 4 writes of the stacking notebook are guarded by
`SUBMIT = True`). -/
structure NotebookModel where
  title : String
  usesStratifiedKFold : Bool
  csvWrites : List String
deriving DecidableEq, Repr

/-- `tps-2021-11/notebooks/Notebook 2 - Handling Noisy Labels.ipynb`. -/
def nbNoisyLabels : NotebookModel :=
  ⟨"TPS 11/21 - Handling Mislabeled Data", true,
   ["../output/logit_submission.csv", "../output/noisy_logit_submission.csv",
    "../output/ridge_submission.csv", "../output/noisy_ridge_submission.csv",
    "../output/lda_submission.csv", "../output/noisy_lda_submission.csv",
    "../output/sgd_submission.csv", "../output/noisy_sgd_submission.csv",
    "../output/nb_submission.csv", "../output/noisy_nb_submission.csv",
    "../output/mlp_submission.csv", "../output/noisy_mlp_submission.csv",
    "../output/xgb_submission.csv", "../output/noisy_xgb_submission.csv"]⟩

/-- `tps-2021-12/notebooks/Notebook 2b - XGBoost Feature Engineering.ipynb`:
it benchmarks feature sets with `score_features` and never calls
`to_csv`. -/
def nbXgbFeatEng : NotebookModel :=
  ⟨"TPS 12 - Feature Engineering (XGBoost)", true, []⟩

/-- `tps-2022-02/notebooks/Notebook 8 - Class Probabilities.ipynb`. -/
def nbClassProb : NotebookModel :=
  ⟨"Tweaking Class Probabilities", true,
   ["../submissions/extratrees_tweaked.csv", "../submissions/bagging_tweaked.csv",
    "../submissions/four_models_tweaked.csv"]⟩

/-- First unnamed notebook (lines 1-1163): "TPS 12 - Feature Engineering",
CatBoost benchmark via `score_features`; no `to_csv`. -/
def nbUnnamedFeatEng1 : NotebookModel :=
  ⟨"TPS 12 - Feature Engineering (1)", true, []⟩

/-- Second unnamed notebook (lines 1164-2327): same feature-engineering
benchmark; no `to_csv`. -/
def nbUnnamedFeatEng2 : NotebookModel :=
  ⟨"TPS 12 - Feature Engineering (2)", true, []⟩

/-- Third unnamed notebook (lines 2328-2579): "Baselines" for LightGBM and
HistGradientBoosting; no `to_csv`. -/
def nbUnnamedBaselines : NotebookModel :=
  ⟨"Baselines", true, []⟩

/-- Fourth unnamed notebook (lines 2580-3500): "Feature Engineering" with
`score_lightgbm(preprocessing)`; no `to_csv`. -/
def nbUnnamedFeatEngLgbm : NotebookModel :=
  ⟨"Feature Engineering", true, []⟩

/-- Fifth unnamed notebook (lines 3501-4643): "Stacking"; writes four
submissions, guarded by `SUBMIT = True` with `NUM_FOLDS = 3`. -/
def nbUnnamedStacking : NotebookModel :=
  ⟨"Stacking", true,
   ["../output/xgboost_cpu_3fold_submission.csv",
    "../output/catboost_cpu_3fold_submission.csv",
    "../output/stack_lgbm_3fold_submission.csv",
    "../output/stack_xgb_3fold_submission.csv"]⟩

/-- Sixth unnamed notebook (lines 4644-5014): "Neural Network Baseline". -/
def nbUnnamedNN : NotebookModel :=
  ⟨"Neural Network Baseline", true, ["../output/simple_nn_submission.csv"]⟩

/-- All nine notebooks of the repository. -/
def repositoryNotebooks : List NotebookModel :=
  [nbNoisyLabels, nbXgbFeatEng, nbClassProb, nbUnnamedFeatEng1,
   nbUnnamedFeatEng2, nbUnnamedBaselines, nbUnnamedFeatEngLgbm,
   nbUnnamedStacking, nbUnnamedNN]

/-! ### Concrete data used by witnesses and counterexamples -/

/-- A concrete fold assignment of 5 rows to 3 folds. -/
def exAssign : Fin 5 → Fin 3 := fun i => ⟨i.val % 3, Nat.mod_lt _ (by decide)⟩

/-- A one-row frame with the columns `water_features` needs, all of
integer dtype as in the raw cover-type data. -/
def exWaterFrame : DataFrame :=
  [("Elevation", ⟨true, [10]⟩),
   ("Horizontal_Distance_To_Hydrology", ⟨true, [3]⟩),
   ("Vertical_Distance_To_Hydrology", ⟨true, [4]⟩)]

/-- A two-row frame with one integer and two float columns, for the
`create_row_stats` witness. -/
def exStatsFrame : DataFrame :=
  [("a", ⟨true, [1, 2]⟩), ("b", ⟨false, [3, 4]⟩), ("c", ⟨false, [5, 6]⟩)]

/-- One-column integer frame. -/
def exIntFrame : DataFrame := [("a", ⟨true, [1]⟩)]

/-- The same single column with the same values but float dtype. -/
def exFloatFrame : DataFrame := [("a", ⟨false, [1]⟩)]

/-- A two-column histogram frame for the `gcd_of_all` witness. -/
def exNatFrame : NatFrame := [("a", [4, 6]), ("b", [6, 9])]

end TPS

namespace TPS

theorem getCol_eq_none_of_not_hasCol (df : DataFrame) (name : String)
    (h : hasCol df name = false) : getCol df name = none := by
  induction df with
  | nil => simp [getCol]
  | cons p t ih =>
    simp only [hasCol, List.any_cons, Bool.or_eq_false_iff] at h
    simp only [getCol, List.find?, h.1]
    exact ih (by simpa [hasCol] using h.2)

theorem getCol_map_set_self (df : DataFrame) (name : String) (c : Column)
    (h : hasCol df name = true) :
    getCol (df.map (fun p => if p.1 == name then (name, c) else p)) name = some c := by
  induction df with
  | nil => simp [hasCol] at h
  | cons p t ih =>
    by_cases hp : p.1 = name
    · have hb : (p.1 == name) = true := by simpa using hp
      simp [getCol, List.find?, hb]
    · have hb : (p.1 == name) = false := by simpa using hp
      simp only [hasCol, List.any_cons, hb, Bool.false_or] at h
      simp only [List.map_cons, hb, if_neg, Bool.false_eq_true, not_false_iff]
      simp only [getCol, List.find?, hb]
      exact ih (by simpa [hasCol] using h)

theorem getCol_map_set_ne (df : DataFrame) (name other : String) (c : Column)
    (h : other ≠ name) :
    getCol (df.map (fun p => if p.1 == name then (name, c) else p)) other
      = getCol df other := by
  induction df with
  | nil => simp
  | cons p t ih =>
    by_cases hp : p.1 = name
    · have hb : (p.1 == name) = true := by simpa using hp
      have ho : (name == other) = false := by simpa using (Ne.symm h)
      have ho2 : (p.1 == other) = false := by simpa [hp] using (Ne.symm h)
      simp only [List.map_cons, hb, if_pos]
      simp only [getCol, List.find?, ho, ho2] at *
      simpa [getCol] using ih
    · have hb : (p.1 == name) = false := by simpa using hp
      simp only [List.map_cons, hb, if_neg, Bool.false_eq_true, not_false_iff]
      simp only [getCol, List.find?]
      by_cases hpo : p.1 = other
      · simp [hpo]
      · have hbo : (p.1 == other) = false := by simpa using hpo
        simp only [hbo]
        simpa [getCol] using ih

theorem getCol_setCol_self (df : DataFrame) (name : String) (c : Column) :
    getCol (setCol df name c) name = some c := by
  unfold setCol
  by_cases h : hasCol df name
  · rw [if_pos h]
    exact getCol_map_set_self df name c h
  · rw [if_neg h]
    have hn : getCol df name = none :=
      getCol_eq_none_of_not_hasCol df name (by simpa using h)
    have hf : df.find? (fun p => p.1 == name) = none := by
      unfold getCol at hn
      exact Option.map_eq_none'.mp hn
    unfold getCol
    rw [List.find?_append, hf]
    simp [List.find?]

theorem getCol_setCol_ne (df : DataFrame) (name other : String) (c : Column)
    (h : other ≠ name) : getCol (setCol df name c) other = getCol df other := by
  unfold setCol
  by_cases hc : hasCol df name
  · rw [if_pos hc]
    exact getCol_map_set_ne df name other c h
  · rw [if_neg hc]
    unfold getCol
    rw [List.find?_append]
    have hb : (name == other) = false := by simpa using Ne.symm h
    have : List.find? (fun p => p.1 == other) [(name, c)] = none := by
      simp [List.find?, hb]
    rcases hfind : df.find? (fun p => p.1 == other) with _ | v
    · simp [hfind, this]
    · simp [hfind]

theorem col_setCol_self (df : DataFrame) (name : String) (c : Column) :
    col (setCol df name c) name = c := by
  simp [col, getCol_setCol_self]

theorem col_setCol_ne (df : DataFrame) (name other : String) (c : Column)
    (h : other ≠ name) : col (setCol df name c) other = col df other := by
  simp [col, getCol_setCol_ne df name other c h]

/-! ### Commutation of the frame operations with the value-level view -/

theorem col_values_stripD (df : DataFrame) (nm : String) :
    (col df nm).values = colV (stripD df) nm := by
  induction df with
  | nil => simp [col, getCol, colV, stripD]
  | cons p t ih =>
    by_cases hp : (p.1 == nm) = true
    · simp [col, getCol, colV, stripD, List.find?, hp]
    · simp only [Bool.not_eq_true] at hp
      simp only [col, getCol, colV, stripD, List.map_cons, List.find?, hp] at *
      exact ih

theorem hasCol_stripD (df : DataFrame) (nm : String) :
    hasCol df nm = hasColV (stripD df) nm := by
  induction df with
  | nil => rfl
  | cons p t ih => simp [hasCol, hasColV, stripD, List.any_cons] at *; rw [ih]

theorem stripD_map_set (df : DataFrame) (nm : String) (c : Column) :
    stripD (df.map (fun p => if p.1 == nm then (nm, c) else p))
      = (stripD df).map (fun p => if p.1 == nm then (nm, c.values) else p) := by
  induction df with
  | nil => rfl
  | cons p t ih =>
    simp only [stripD, List.map_cons] at ih ⊢
    by_cases hp : (p.1 == nm) = true
    · rw [if_pos hp, if_pos hp, ih]
    · rw [if_neg hp, if_neg hp, ih]

theorem stripD_setCol (df : DataFrame) (nm : String) (c : Column) :
    stripD (setCol df nm c) = setColV (stripD df) nm c.values := by
  unfold setCol setColV
  rw [← hasCol_stripD]
  by_cases h : hasCol df nm
  · rw [if_pos h, if_pos h]
    exact stripD_map_set df nm c
  · rw [if_neg h, if_neg h]
    simp [stripD]

theorem selLen_stripD (df : DataFrame) (names : List String) :
    selLen df names = selLenV (stripD df) names := by
  cases names with
  | nil => rfl
  | cons n t => simp [selLen, selLenV, col_values_stripD]

theorem rowAgg_stripD (g : List ℚ → ℚ) (df : DataFrame) (names : List String) :
    rowAgg g df names = rowAggV g (stripD df) names := by
  simp [rowAgg, rowAggV, selLen_stripD, col_values_stripD]

theorem map_fst_stripD (df : DataFrame) :
    df.map (fun p => p.1) = (stripD df).map (fun p => p.1) := by
  simp [stripD]

/-! ### Facts about lookups and row aggregation used by the
`create_row_stats` claim -/

theorem hasCol_of_mem_map_fst (df : DataFrame) (nm : String)
    (h : nm ∈ df.map (fun p => p.1)) : hasCol df nm = true := by
  simp only [List.mem_map] at h
  obtain ⟨p, hp, hfst⟩ := h
  simp only [hasCol, List.any_eq_true]
  exact ⟨p, hp, by simp [hfst]⟩

theorem mem_map_fst_of_mem_intColNames (df : DataFrame) (nm : String)
    (h : nm ∈ intColNames df) : nm ∈ df.map (fun p => p.1) := by
  simp only [intColNames, List.mem_map] at h
  obtain ⟨p, hp, hfst⟩ := h
  exact List.mem_map.mpr ⟨p, List.mem_of_mem_filter hp, hfst⟩

theorem mem_map_fst_of_mem_contColNames (df : DataFrame) (nm : String)
    (h : nm ∈ contColNames df) : nm ∈ df.map (fun p => p.1) := by
  simp only [contColNames, List.mem_map] at h
  obtain ⟨p, hp, hfst⟩ := h
  exact List.mem_map.mpr ⟨p, List.mem_of_mem_filter hp, hfst⟩

theorem col_values_length (df : DataFrame) (nm : String) (N : ℕ)
    (hA : ∀ p ∈ df, p.2.values.length = N) (h : hasCol df nm = true) :
    (col df nm).values.length = N := by
  have hex : ∃ p ∈ df, (fun p : String × Column => p.1 == nm) p := by
    simpa [hasCol, List.any_eq_true] using h
  have hsome : (df.find? (fun p => p.1 == nm)).isSome := List.find?_isSome.mpr hex
  rcases hq : df.find? (fun p => p.1 == nm) with _ | q
  · rw [hq] at hsome
    simp at hsome
  · have hmem : q ∈ df := List.mem_of_find?_eq_some hq
    simp only [col, getCol, hq, Option.map_some, Option.getD_some]
    exact hA q hmem

theorem rowAgg_getD (g : List ℚ → ℚ) (df : DataFrame) (names : List String)
    (r : ℕ) (hr : r < selLen df names) :
    (rowAgg g df names).getD r 0
      = g (names.map (fun nm => (col df nm).values.getD r 0)) := by
  unfold rowAgg
  rw [List.getD_eq_getElem?_getD, List.getElem?_map, List.getElem?_range hr]
  rfl

theorem rowAgg_stat (g : List ℚ → ℚ) (hg : g [] = 0) (df : DataFrame)
    (names : List String) (N r : ℕ)
    (hA : ∀ p ∈ df, p.2.values.length = N) (hr : r < N)
    (hnames : ∀ nm ∈ names, hasCol df nm = true) :
    (rowAgg g df names).getD r 0
      = g (names.map (fun nm => (col df nm).values.getD r 0)) := by
  cases names with
  | nil => simpa [rowAgg, selLen] using hg.symm
  | cons nm0 rest =>
    have hlen : (col df nm0).values.length = N :=
      col_values_length df nm0 N hA (hnames nm0 (by simp))
    have hsel : selLen df (nm0 :: rest) = N := by simp [selLen, hlen]
    exact rowAgg_getD g df (nm0 :: rest) r (by rw [hsel]; exact hr)

/-! ### Generic facts about the fold loops -/

theorem list_map_div_sum (l : List α) (g : α → ℚ) (d : ℚ) :
    (l.map (fun x => g x / d)).sum = (l.map g).sum / d := by
  induction l with
  | nil => simp
  | cons h t ih => simp [ih, add_div]

theorem train_model_foldl_oof {M : Type} (k n m : ℕ) (a : Fin n → Fin k)
    (fit : List (Fin n) → M) (pv : M → Fin n → ℚ) (pt : M → Fin m → ℚ)
    (L : List (Fin k)) (s : TrainState n m) (i : Fin n) :
    (L.foldl (train_model_step k n m a fit pv pt) s).oof i
      = if a i ∈ L then pv (fit (trainIdx k n a (a i))) i else s.oof i := by
  induction L generalizing s with
  | nil => simp
  | cons f t ih =>
    simp only [List.foldl_cons, ih, List.mem_cons]
    by_cases hmem : a i ∈ t
    · simp [hmem]
    · by_cases hf : a i = f
      · subst hf
        simp [hmem, train_model_step]
      · simp [hmem, hf, train_model_step]

theorem train_model_foldl_writes {M : Type} (k n m : ℕ) (a : Fin n → Fin k)
    (fit : List (Fin n) → M) (pv : M → Fin n → ℚ) (pt : M → Fin m → ℚ)
    (L : List (Fin k)) (s : TrainState n m) (i : Fin n) :
    (L.foldl (train_model_step k n m a fit pv pt) s).writes i
      = s.writes i + L.count (a i) := by
  induction L generalizing s with
  | nil => simp
  | cons f t ih =>
    simp only [List.foldl_cons, ih, List.count_cons]
    by_cases hf : a i = f
    · simp [train_model_step, hf]
      omega
    · have : (f == a i) = false := by simpa using fun h => hf h.symm
      simp [train_model_step, hf, this]

theorem train_model_foldl_test {M : Type} (k n m : ℕ) (a : Fin n → Fin k)
    (fit : List (Fin n) → M) (pv : M → Fin n → ℚ) (pt : M → Fin m → ℚ)
    (L : List (Fin k)) (s : TrainState n m) (j : Fin m) :
    (L.foldl (train_model_step k n m a fit pv pt) s).testPreds j
      = s.testPreds j + (L.map (fun f => pt (fit (trainIdx k n a f)) j / (k : ℚ))).sum := by
  induction L generalizing s with
  | nil => simp
  | cons f t ih =>
    simp only [List.foldl_cons, ih, List.map_cons, List.sum_cons]
    show (train_model_step k n m a fit pv pt s f).testPreds j + _ = _
    simp [train_model_step, add_assoc]

theorem score_features_foldl_oof {M : Type} (k n m c : ℕ) (a : Fin n → Fin k)
    (fit : List (Fin n) → M) (pv : M → Fin n → ℚ) (pp : M → Fin m → Fin c → ℚ)
    (L : List (Fin k)) (s : ScoreState n m c) (i : Fin n) :
    (L.foldl (score_features_step k n m c a fit pv pp) s).oof i
      = if a i ∈ L then pv (fit (trainIdx k n a (a i))) i else s.oof i := by
  induction L generalizing s with
  | nil => simp
  | cons f t ih =>
    simp only [List.foldl_cons, ih, List.mem_cons]
    by_cases hmem : a i ∈ t
    · simp [hmem]
    · by_cases hf : a i = f
      · subst hf
        simp [hmem, score_features_step]
      · simp [hmem, hf, score_features_step]

theorem score_features_foldl_writes {M : Type} (k n m c : ℕ) (a : Fin n → Fin k)
    (fit : List (Fin n) → M) (pv : M → Fin n → ℚ) (pp : M → Fin m → Fin c → ℚ)
    (L : List (Fin k)) (s : ScoreState n m c) (i : Fin n) :
    (L.foldl (score_features_step k n m c a fit pv pp) s).writes i
      = s.writes i + L.count (a i) := by
  induction L generalizing s with
  | nil => simp
  | cons f t ih =>
    simp only [List.foldl_cons, ih, List.count_cons]
    by_cases hf : a i = f
    · simp [score_features_step, hf]
      omega
    · have : (f == a i) = false := by simpa using fun h => hf h.symm
      simp [score_features_step, hf, this]

theorem score_features_foldl_test {M : Type} (k n m c : ℕ) (a : Fin n → Fin k)
    (fit : List (Fin n) → M) (pv : M → Fin n → ℚ) (pp : M → Fin m → Fin c → ℚ)
    (L : List (Fin k)) (s : ScoreState n m c) (j : Fin m) (cl : Fin c) :
    (L.foldl (score_features_step k n m c a fit pv pp) s).testPreds j cl
      = s.testPreds j cl + (L.map (fun f => pp (fit (trainIdx k n a f)) j cl)).sum := by
  induction L generalizing s with
  | nil => simp
  | cons f t ih =>
    simp only [List.foldl_cons, ih, List.map_cons, List.sum_cons]
    show (score_features_step k n m c a fit pv pp s f).testPreds j cl + _ = _
    simp [score_features_step, add_assoc]

theorem count_finRange_eq_one (k : ℕ) (f : Fin k) :
    (List.finRange k).count f = 1 :=
  List.count_eq_one_of_mem (List.nodup_finRange k) (List.mem_finRange f)

/-! ### Claim theorems -/

/-- C1: in every cross-validation scoring harness (`score_features`,
`train_model`, `train_noisy_model`, `score_model`, `score_lightgbm`), the
validation index sets produced by the stratified k-fold split over
`NUM_FOLDS` folds are pairwise disjoint, every training row lies in the
validation set of its assigned fold, and only in that one, so each row is
assigned to exactly one fold's validation set. -/
theorem skf_valid_sets_disjoint_cover (k n : ℕ) (a : Fin n → Fin k) :
    (∀ f g : Fin k, f ≠ g → ∀ i : Fin n, i ∈ validIdx k n a f → i ∉ validIdx k n a g)
  ∧ (∀ i : Fin n, i ∈ validIdx k n a (a i))
  ∧ (∀ i : Fin n, ∀ f : Fin k, i ∈ validIdx k n a f → f = a i) := by
  refine ⟨?_, ?_, ?_⟩
  · intro f g hfg i hif hig
    simp only [validIdx, List.mem_filter, decide_eq_true_eq] at hif hig
    exact hfg (hif.2.symm.trans hig.2)
  · intro i
    simp [validIdx, List.mem_filter, List.mem_finRange]
  · intro i f hif
    simp only [validIdx, List.mem_filter, decide_eq_true_eq] at hif
    exact hif.2.symm

/-- Witness for C1 at the concrete assignment `exAssign` of 5 rows to 3
folds: row 2 lies in the validation set of its own fold. -/
theorem skf_valid_sets_disjoint_cover_witness :
    (⟨2, by norm_num⟩ : Fin 5) ∈ validIdx 3 5 exAssign (exAssign ⟨2, by norm_num⟩) :=
  (skf_valid_sets_disjoint_cover 3 5 exAssign).2.1 ⟨2, by norm_num⟩

/-- C2: in both harness shapes (`train_model` of the noisy-labels
notebook and `score_features` of the feature-engineering notebooks), the
out-of-fold entry of every training row `i` is written exactly once, by
the model of the unique fold whose validation set contains `i`, and that
model is fit on that fold's training index set, which excludes `i`. -/
theorem cv_oof_written_once_out_of_fold {M : Type} (k n m c : ℕ)
    (a : Fin n → Fin k) (fit : List (Fin n) → M) (pv : M → Fin n → ℚ)
    (pt : M → Fin m → ℚ) (pp : M → Fin m → Fin c → ℚ) (i : Fin n) :
    ((train_model k n m a fit pv pt).oof i = pv (fit (trainIdx k n a (a i))) i
      ∧ (train_model k n m a fit pv pt).writes i = 1
      ∧ i ∉ trainIdx k n a (a i)
      ∧ i ∈ validIdx k n a (a i))
  ∧ ((score_features k n m c a fit pv pp).oof i = pv (fit (trainIdx k n a (a i))) i
      ∧ (score_features k n m c a fit pv pp).writes i = 1
      ∧ i ∉ trainIdx k n a (a i)
      ∧ i ∈ validIdx k n a (a i)) := by
  have hnotin : i ∉ trainIdx k n a (a i) := by
    simp [trainIdx, List.mem_filter]
  have hin : i ∈ validIdx k n a (a i) := by
    simp [validIdx, List.mem_filter, List.mem_finRange]
  refine ⟨⟨?_, ?_, hnotin, hin⟩, ⟨?_, ?_, hnotin, hin⟩⟩
  · rw [train_model, train_model_foldl_oof]
    simp [List.mem_finRange]
  · rw [train_model, train_model_foldl_writes]
    simp [count_finRange_eq_one]
  · rw [score_features, score_features_foldl_oof]
    simp [List.mem_finRange]
  · rw [score_features, score_features_foldl_writes]
    simp [count_finRange_eq_one]

/-- C3 (amended): the harnesses that accumulate
`model.predict_proba(X_test) / NUM_FOLDS` per fold (`train_model`,
`train_noisy_model`, `score_model`, `score_lightgbm`) end the fold loop
with the average over folds, `(1/NUM_FOLDS) * sum` of the per-fold test
predictions; the `score_features` harness of the 12/21 feature-engineering
notebooks accumulates without the `/ NUM_FOLDS` factor and ends the loop
with the plain sum. -/
theorem cv_test_preds_average_and_sum {M : Type} (k n m c : ℕ)
    (a : Fin n → Fin k) (fit : List (Fin n) → M) (pv : M → Fin n → ℚ)
    (pt : M → Fin m → ℚ) (pp : M → Fin m → Fin c → ℚ) (j : Fin m) (cl : Fin c) :
    (train_model k n m a fit pv pt).testPreds j
        = ((List.finRange k).map (fun f => pt (fit (trainIdx k n a f)) j)).sum / (k : ℚ)
  ∧ (score_features k n m c a fit pv pp).testPreds j cl
        = ((List.finRange k).map (fun f => pp (fit (trainIdx k n a f)) j cl)).sum := by
  constructor
  · rw [train_model, train_model_foldl_test, list_map_div_sum]
    simp
  · rw [score_features, score_features_foldl_test]
    simp

/-- Counterexample to C3 as stated: instantiating `score_features` with
`NUM_FOLDS = 6` folds and an estimator whose `predict_proba` is constantly
1, the accumulated test array after the fold loop is 6, whereas
`(1/NUM_FOLDS)` times the sum over folds of the per-fold predictions is 1;
`score_features` accumulates the sum, not the running average. -/
theorem score_features_test_preds_not_average :
    (score_features 6 6 1 1 (fun i => i) (fun _ => ()) (fun _ _ => 0)
        (fun _ _ _ => 1)).testPreds 0 0 = 6
  ∧ (1 / 6 : ℚ) * 6 ≠ 6 := by
  constructor
  · have h6 : List.finRange 6
        = [(0 : Fin 6), 1, 2, 3, 4, 5] := by decide
    rw [score_features, h6]
    simp only [List.foldl_cons, List.foldl_nil, score_features_step]
    norm_num
  · norm_num

/-- C8: in `hillshade_features` the three added columns
`Hillshade_9am_Clipped`, `Hillshade_Noon_Clipped` and
`Hillshade_3pm_Clipped` are all computed by clipping the same source
column `Hillshade_9am` to the range 0..255; hence on every input frame
the three new columns are identical and are a function of the
`Hillshade_9am` column alone, independent of `Hillshade_Noon` and
`Hillshade_3pm`. -/
theorem hillshade_clipped_all_from_9am (data : DataFrame) :
    getCol (hillshade_features data) "Hillshade_9am_Clipped"
        = some (colClip 0 255 (col data "Hillshade_9am"))
  ∧ getCol (hillshade_features data) "Hillshade_Noon_Clipped"
        = some (colClip 0 255 (col data "Hillshade_9am"))
  ∧ getCol (hillshade_features data) "Hillshade_3pm_Clipped"
        = some (colClip 0 255 (col data "Hillshade_9am")) := by
  refine ⟨?_, ?_, ?_⟩ <;>
    simp [hillshade_features, getCol_setCol_ne, getCol_setCol_self,
      col_setCol_ne, col_setCol_self]

/-- C9: in `water_features` the column `Hydro_Taxicab_Pos` is computed
from the same expression as `Hydro_Euclid_Pos` - the square root of the
sum of squares of the eps-shifted horizontal and vertical hydrology
distances - so the two stored columns hold literally the same value list
(and the same dtype tag); the Manhattan distance
`abs(horizontal) + abs(vertical)` is computed only in `Hydro_Taxicab`. -/
theorem water_taxicab_pos_is_euclid_pos (sqrtFn : ℚ → ℚ) (data : DataFrame) :
    getCol (water_features sqrtFn data) "Hydro_Taxicab_Pos"
        = some ⟨false, (List.zipWith (fun a b => a ^ 2 + b ^ 2)
            (start_at_eps (col data "Horizontal_Distance_To_Hydrology").values)
            (start_at_eps (col data "Vertical_Distance_To_Hydrology").values)).map sqrtFn⟩
  ∧ getCol (water_features sqrtFn data) "Hydro_Euclid_Pos"
        = some ⟨false, (List.zipWith (fun a b => a ^ 2 + b ^ 2)
            (start_at_eps (col data "Horizontal_Distance_To_Hydrology").values)
            (start_at_eps (col data "Vertical_Distance_To_Hydrology").values)).map sqrtFn⟩
  ∧ getCol (water_features sqrtFn data) "Hydro_Taxicab"
        = some ⟨false, List.zipWith (fun a b => |a| + |b|)
            (col data "Horizontal_Distance_To_Hydrology").values
            (col data "Vertical_Distance_To_Hydrology").values⟩ := by
  refine ⟨?_, ?_, ?_⟩ <;>
    simp [water_features, getCol_setCol_ne, getCol_setCol_self,
      col_setCol_ne, col_setCol_self, astype, colZip]

/-- C4 (amended): each feature-engineering function leaves every column
whose name it does not assign exactly as in the input frame (same values
and same dtype), and none of them mutates its argument (each works on a
functional copy); `water_features` additionally reassigns its two
hydrology source columns through `astype` casts, which keep the numeric
values of every cell. -/
theorem feature_functions_only_add_columns (sinFn sqrtFn : ℚ → ℚ) (piQ : ℚ)
    (data : DataFrame) (name : String) :
    (name ∉ ["Aspect_360", "Aspect_Sine", "Aspect_Alt"] →
      getCol (aspect_features sinFn piQ data) name = getCol data name)
  ∧ (name ∉ ["Hillshade_9am_Clipped", "Hillshade_Noon_Clipped", "Hillshade_3pm_Clipped",
        "Hillshade_Sum", "Hillshade_Range"] →
      getCol (hillshade_features data) name = getCol data name)
  ∧ (name ∉ ["Horizontal_Distance_To_Hydrology", "Vertical_Distance_To_Hydrology",
        "Hydro_Taxicab", "Hydro_Taxicab_Pos", "Hydro_Euclid", "Hydro_Euclid_Pos",
        "Water_Direction", "Water Elevation"] →
      getCol (water_features sqrtFn data) name = getCol data name)
  ∧ (name ∉ ["Soil_Count", "Wilderness_Count"] →
      getCol (count_features data) name = getCol data name)
  ∧ (name ∉ ["Hydro_Fire_Sum", "Hydro_Fire_AbsDiff", "Hydro_Fire_EpsSum", "Hydro_Fire_Diff"] →
      getCol (hydrofire_interactions data) name = getCol data name)
  ∧ (name ∉ ["Hydro_Road_1", "Hydro_Road_2", "Fire_Road_1", "Fire_Road_2"] →
      getCol (roadway_interactions data) name = getCol data name)
  ∧ (name ∉ ["Road_Elev_Int", "VHydro_Elev_Int", "Elev_VHydro_Diff", "Elev_HHydro_Diff"] →
      getCol (elevation_interactions data) name = getCol data name)
  ∧ (name ∉ rowStatNames →
      getCol (create_row_stats sqrtFn data) name = getCol data name)
  ∧ (col (water_features sqrtFn data) "Horizontal_Distance_To_Hydrology").values
      = (col data "Horizontal_Distance_To_Hydrology").values
  ∧ (col (water_features sqrtFn data) "Vertical_Distance_To_Hydrology").values
      = (col data "Vertical_Distance_To_Hydrology").values := by
  refine ⟨?_, ?_, ?_, ?_, ?_, ?_, ?_, ?_, ?_, ?_⟩
  · intro hmem
    simp only [List.mem_cons, List.not_mem_nil, or_false, not_or] at hmem
    simp [aspect_features, getCol_setCol_ne, hmem]
  · intro hmem
    simp only [List.mem_cons, List.not_mem_nil, or_false, not_or] at hmem
    simp [hillshade_features, getCol_setCol_ne, hmem]
  · intro hmem
    simp only [List.mem_cons, List.not_mem_nil, or_false, not_or] at hmem
    simp [water_features, getCol_setCol_ne, hmem]
  · intro hmem
    simp only [List.mem_cons, List.not_mem_nil, or_false, not_or] at hmem
    simp [count_features, getCol_setCol_ne, hmem]
  · intro hmem
    simp only [List.mem_cons, List.not_mem_nil, or_false, not_or] at hmem
    simp [hydrofire_interactions, getCol_setCol_ne, hmem]
  · intro hmem
    simp only [List.mem_cons, List.not_mem_nil, or_false, not_or] at hmem
    simp [roadway_interactions, getCol_setCol_ne, hmem]
  · intro hmem
    simp only [List.mem_cons, List.not_mem_nil, or_false, not_or] at hmem
    simp [elevation_interactions, getCol_setCol_ne, hmem]
  · intro hmem
    simp only [rowStatNames, List.mem_cons, List.not_mem_nil, or_false, not_or] at hmem
    simp [create_row_stats, getCol_setCol_ne, hmem]
  · simp [water_features, getCol_setCol_ne, getCol_setCol_self,
      col_setCol_ne, col_setCol_self, astype]
  · simp [water_features, getCol_setCol_ne, getCol_setCol_self,
      col_setCol_ne, col_setCol_self, astype]

/-- Counterexample to C4 as stated: on a one-row all-integer frame,
`water_features` does not leave the preexisting column
`Horizontal_Distance_To_Hydrology` equal to the input column - the
`astype` casts change its dtype from integer to float even though the
cell values survive. -/
theorem water_features_recasts_hydrology_column :
    getCol (water_features id exWaterFrame) "Horizontal_Distance_To_Hydrology"
      ≠ getCol exWaterFrame "Horizontal_Distance_To_Hydrology" := by
  simp [water_features, getCol_setCol_ne, getCol_setCol_self,
    col_setCol_ne, col_setCol_self, astype, exWaterFrame, getCol, col, List.find?]

/-- Witness for C4 at a concrete frame: `Elevation` is not one of the
columns `aspect_features` assigns, and it passes through unchanged. -/
theorem feature_functions_only_add_columns_witness :
    ("Elevation" ∉ ["Aspect_360", "Aspect_Sine", "Aspect_Alt"])
  ∧ getCol (aspect_features id 3 exWaterFrame) "Elevation" = getCol exWaterFrame "Elevation" :=
  ⟨by decide,
   (feature_functions_only_add_columns id id 3 exWaterFrame "Elevation").1 (by decide)⟩

/-- C7 (amended): the arithmetic feature functions are dtype-blind fixed
vectorized expressions - two frames with the same column names and the
same cell values (possibly different dtypes) produce outputs with the
same column names and the same cell values. (`create_row_stats` is NOT in
this list: it branches on the dtype split, see the counterexample.) -/
theorem arithmetic_feature_values_depend_only_on_values
    (sinFn sqrtFn : ℚ → ℚ) (piQ : ℚ) (df1 df2 : DataFrame)
    (h : stripD df1 = stripD df2) :
    stripD (aspect_features sinFn piQ df1) = stripD (aspect_features sinFn piQ df2)
  ∧ stripD (hillshade_features df1) = stripD (hillshade_features df2)
  ∧ stripD (water_features sqrtFn df1) = stripD (water_features sqrtFn df2)
  ∧ stripD (count_features df1) = stripD (count_features df2)
  ∧ stripD (hydrofire_interactions df1) = stripD (hydrofire_interactions df2)
  ∧ stripD (roadway_interactions df1) = stripD (roadway_interactions df2)
  ∧ stripD (elevation_interactions df1) = stripD (elevation_interactions df2) := by
  refine ⟨?_, ?_, ?_, ?_, ?_, ?_, ?_⟩
  all_goals
    simp only [aspect_features, hillshade_features, water_features, count_features,
      hydrofire_interactions, roadway_interactions, elevation_interactions,
      stripD_setCol, col_values_stripD, rowAgg_stripD, map_fst_stripD,
      colMap, colMapF, colZip, colClip, astype]
  all_goals rw [h]

/-- Counterexample to C7 as stated: `create_row_stats` branches on the
column dtypes, not only on vectorized arithmetic over the values - two
frames with identical names and identical cell values, one tagged integer
and one tagged float, yield different `binary_count` results, so the
derived columns are not computed by an unconditional vectorized
expression over the input values. -/
theorem create_row_stats_branches_on_dtype :
    stripD exIntFrame = stripD exFloatFrame
  ∧ rowVal (col (create_row_stats id exIntFrame) "binary_count") 0 = 1
  ∧ rowVal (col (create_row_stats id exFloatFrame) "binary_count") 0 = 0 := by
  refine ⟨by decide, ?_, ?_⟩
  · simp [create_row_stats, getCol_setCol_ne, getCol_setCol_self,
      col_setCol_ne, col_setCol_self, intColNames, contColNames, exIntFrame,
      rowVal, rowAgg, selLen, col, getCol, List.find?]
  · simp [create_row_stats, getCol_setCol_ne, getCol_setCol_self,
      col_setCol_ne, col_setCol_self, intColNames, contColNames, exFloatFrame,
      rowVal, rowAgg, selLen, col, getCol, List.find?]

/-- C5: `create_row_stats` splits the input columns into integer-dtyped
and non-integer-dtyped ones and, for every row of an aligned frame,
`binary_count` is the sum of the integer columns and `min`, `max`,
`median`, `mean` are the corresponding statistics of the non-integer
columns of that row, while every column not named like one of the ten
statistics is carried over unchanged. -/
theorem create_row_stats_row_statistics (sqrtFn : ℚ → ℚ) (df : DataFrame)
    (N r : ℕ) (hA : ∀ p ∈ df, p.2.values.length = N) (hr : r < N) :
    rowVal (col (create_row_stats sqrtFn df) "binary_count") r
        = ((intColNames df).map (fun nm => rowVal (col df nm) r)).sum
  ∧ rowVal (col (create_row_stats sqrtFn df) "min") r
        = listMin ((contColNames df).map (fun nm => rowVal (col df nm) r))
  ∧ rowVal (col (create_row_stats sqrtFn df) "max") r
        = listMax ((contColNames df).map (fun nm => rowVal (col df nm) r))
  ∧ rowVal (col (create_row_stats sqrtFn df) "median") r
        = listMedian ((contColNames df).map (fun nm => rowVal (col df nm) r))
  ∧ rowVal (col (create_row_stats sqrtFn df) "mean") r
        = listMean ((contColNames df).map (fun nm => rowVal (col df nm) r))
  ∧ (∀ nm, nm ∉ rowStatNames →
        getCol (create_row_stats sqrtFn df) nm = getCol df nm) := by
  have hint : ∀ nm ∈ intColNames df, hasCol df nm = true := fun nm hm =>
    hasCol_of_mem_map_fst df nm (mem_map_fst_of_mem_intColNames df nm hm)
  have hcont : ∀ nm ∈ contColNames df, hasCol df nm = true := fun nm hm =>
    hasCol_of_mem_map_fst df nm (mem_map_fst_of_mem_contColNames df nm hm)
  refine ⟨?_, ?_, ?_, ?_, ?_, ?_⟩
  · have h1 : col (create_row_stats sqrtFn df) "binary_count"
        = ⟨true, rowAgg List.sum df (intColNames df)⟩ := by
      simp [create_row_stats, col_setCol_ne, col_setCol_self]
    simp only [rowVal, h1]
    rw [rowAgg_stat List.sum (by simp) df (intColNames df) N r hA hr hint]
  · have h1 : col (create_row_stats sqrtFn df) "min"
        = ⟨false, rowAgg listMin df (contColNames df)⟩ := by
      simp [create_row_stats, col_setCol_ne, col_setCol_self]
    simp only [rowVal, h1]
    rw [rowAgg_stat listMin (by simp [listMin]) df (contColNames df) N r hA hr hcont]
  · have h1 : col (create_row_stats sqrtFn df) "max"
        = ⟨false, rowAgg listMax df (contColNames df)⟩ := by
      simp [create_row_stats, col_setCol_ne, col_setCol_self]
    simp only [rowVal, h1]
    rw [rowAgg_stat listMax (by simp [listMax]) df (contColNames df) N r hA hr hcont]
  · have h1 : col (create_row_stats sqrtFn df) "median"
        = ⟨false, rowAgg listMedian df (contColNames df)⟩ := by
      simp [create_row_stats, col_setCol_ne, col_setCol_self]
    simp only [rowVal, h1]
    rw [rowAgg_stat listMedian (by simp [listMedian]) df (contColNames df) N r hA hr hcont]
  · have h1 : col (create_row_stats sqrtFn df) "mean"
        = ⟨false, rowAgg listMean df (contColNames df)⟩ := by
      simp [create_row_stats, col_setCol_ne, col_setCol_self]
    simp only [rowVal, h1]
    rw [rowAgg_stat listMean (by simp [listMean]) df (contColNames df) N r hA hr hcont]
  · intro nm hmem
    simp only [rowStatNames, List.mem_cons, List.not_mem_nil, or_false, not_or] at hmem
    simp [create_row_stats, getCol_setCol_ne, hmem]

/-- Witness for C5 at a concrete two-row frame with one integer and two
float columns. -/
theorem create_row_stats_row_statistics_witness :
    (∀ p ∈ exStatsFrame, p.2.values.length = 2) ∧ 0 < 2
  ∧ rowVal (col (create_row_stats id exStatsFrame) "binary_count") 0
      = ((intColNames exStatsFrame).map (fun nm => rowVal (col exStatsFrame nm) 0)).sum :=
  ⟨by decide, by norm_num,
   (create_row_stats_row_statistics id exStatsFrame 2 0 (by decide) (by norm_num)).1⟩

/-- Witness for C7 at concrete frames: the integer-tagged and float-tagged
one-column frames have equal values, and `count_features` produces
value-identical outputs on them. -/
theorem arithmetic_feature_values_witness :
    stripD exIntFrame = stripD exFloatFrame
  ∧ stripD (count_features exIntFrame) = stripD (count_features exFloatFrame) :=
  ⟨by decide,
   (arithmetic_feature_values_depend_only_on_values id id 3 exIntFrame exFloatFrame
      (by decide)).2.2.2.1⟩

/-- C6 (amended): the model-producing notebooks (the noisy-labels
notebook, the class-probabilities notebook, the stacking notebook and the
neural-network notebook) all train under a stratified k-fold loop and
write at least one submission CSV, and every notebook of the repository
uses the stratified k-fold loop; the feature-engineering benchmark
notebooks, however, write no submission file. -/
theorem submission_writing_notebooks :
    (∀ nb ∈ [nbNoisyLabels, nbClassProb, nbUnnamedStacking, nbUnnamedNN],
      nb.usesStratifiedKFold = true ∧ nb.csvWrites ≠ [])
  ∧ (∀ nb ∈ repositoryNotebooks, nb.usesStratifiedKFold = true) := by
  constructor
  · intro nb hnb
    fin_cases hnb <;> exact ⟨rfl, by simp [nbNoisyLabels, nbClassProb, nbUnnamedStacking, nbUnnamedNN]⟩
  · intro nb hnb
    fin_cases hnb <;> rfl

/-- Counterexample to C6 as stated: the 12/21 XGBoost feature-engineering
notebook is a notebook of the repository that trains under stratified
k-fold cross-validation and reports scores but executes no `to_csv`
submission write at all. -/
theorem feature_notebook_writes_no_submission :
    nbXgbFeatEng ∈ repositoryNotebooks ∧ nbXgbFeatEng.csvWrites = [] := by
  constructor
  · simp [repositoryNotebooks]
  · rfl

/-- Witness for C6: the noisy-labels notebook is one of the submission
writers. -/
theorem submission_writing_notebooks_witness :
    nbNoisyLabels.usesStratifiedKFold = true ∧ nbNoisyLabels.csvWrites ≠ [] :=
  submission_writing_notebooks.1 nbNoisyLabels (by simp)

/-! ### gcd facts for Notebook 8 -/

theorem foldl_gcd_dvd (l : List ℕ) (x : ℕ) :
    (l.foldl Nat.gcd x) ∣ x ∧ ∀ a ∈ l, (l.foldl Nat.gcd x) ∣ a := by
  induction l generalizing x with
  | nil => exact ⟨dvd_refl x, by simp⟩
  | cons h t ih =>
    simp only [List.foldl_cons]
    refine ⟨?_, ?_⟩
    · exact dvd_trans (ih (Nat.gcd x h)).1 (Nat.gcd_dvd_left x h)
    · intro a ha
      rcases List.mem_cons.mp ha with rfl | hat
      · exact dvd_trans (ih (Nat.gcd x a)).1 (Nat.gcd_dvd_right x a)
      · exact (ih (Nat.gcd x h)).2 a hat

theorem dvd_foldl_gcd (l : List ℕ) (x d : ℕ) (hx : d ∣ x)
    (hl : ∀ a ∈ l, d ∣ a) : d ∣ l.foldl Nat.gcd x := by
  induction l generalizing x with
  | nil => simpa using hx
  | cons h t ih =>
    simp only [List.foldl_cons]
    exact ih (Nat.gcd x h) (Nat.dvd_gcd hx (hl h (by simp)))
      (fun a ha => hl a (by simp [ha]))

theorem foldl_zipWith_gcd_length (cols : List (List ℕ)) (init : List ℕ)
    (hcols : ∀ c ∈ cols, c.length = init.length) :
    (cols.foldl (fun g c => List.zipWith Nat.gcd g c) init).length = init.length := by
  induction cols generalizing init with
  | nil => rfl
  | cons c t ih =>
    simp only [List.foldl_cons]
    have hlen : (List.zipWith Nat.gcd init c).length = init.length := by
      simp [List.length_zipWith, hcols c (by simp)]
    rw [ih (List.zipWith Nat.gcd init c)
      (fun c2 hc2 => by rw [hlen]; exact hcols c2 (by simp [hc2])), hlen]

theorem foldl_zipWith_gcd_getD (cols : List (List ℕ)) (init : List ℕ) (r : ℕ)
    (hr : r < init.length) (hcols : ∀ c ∈ cols, c.length = init.length) :
    (cols.foldl (fun g c => List.zipWith Nat.gcd g c) init).getD r 0
      = cols.foldl (fun g c => Nat.gcd g (c.getD r 0)) (init.getD r 0) := by
  induction cols generalizing init with
  | nil => rfl
  | cons c t ih =>
    simp only [List.foldl_cons]
    have hclen : c.length = init.length := hcols c (by simp)
    have hlen : (List.zipWith Nat.gcd init c).length = init.length := by
      simp [List.length_zipWith, hclen]
    have hgetD : (List.zipWith Nat.gcd init c).getD r 0
        = Nat.gcd (init.getD r 0) (c.getD r 0) := by
      have hrz : r < (List.zipWith Nat.gcd init c).length := by rw [hlen]; exact hr
      rw [List.getD_eq_getElem _ _ hrz, List.getElem_zipWith,
        List.getD_eq_getElem _ _ hr, List.getD_eq_getElem _ _ (by rw [hclen]; exact hr)]
    rw [ih (List.zipWith Nat.gcd init c) (by rw [hlen]; exact hr)
      (fun c2 hc2 => by rw [hlen]; exact hcols c2 (by simp [hc2])), hgetD]

/-- C10: on a histogram frame whose feature columns all have `N` aligned
rows, `gcd_of_all` returns a length-`N` list which at every row is the
greatest common divisor of that row's values across the feature columns:
it divides every entry of the row, and every common divisor of the row
divides it. -/
theorem gcd_of_all_correct (features : List String) (df : NatFrame) (N r : ℕ)
    (hne : features ≠ [])
    (hlen : ∀ c ∈ features, (natCol df c).length = N) (hr : r < N) :
    ∃ g, gcd_of_all features df = some g
      ∧ g.length = N
      ∧ (∀ c ∈ features, g.getD r 0 ∣ (natCol df c).getD r 0)
      ∧ (∀ d : ℕ, (∀ c ∈ features, d ∣ (natCol df c).getD r 0) → d ∣ g.getD r 0) := by
  cases features with
  | nil => exact absurd rfl hne
  | cons f0 rest =>
    have hinit : (natCol df f0).length = N := hlen f0 (by simp)
    have hrinit : r < (natCol df f0).length := by rw [hinit]; exact hr
    have hfold : rest.foldl (fun g c => List.zipWith Nat.gcd g (natCol df c)) (natCol df f0)
        = (rest.map (natCol df)).foldl (fun g c => List.zipWith Nat.gcd g c) (natCol df f0) := by
      rw [List.foldl_map]
    have hcols : ∀ c ∈ rest.map (natCol df), c.length = (natCol df f0).length := by
      intro c hc
      simp only [List.mem_map] at hc
      obtain ⟨nm, hnm, rfl⟩ := hc
      rw [hinit]
      exact hlen nm (by simp [hnm])
    have hget : (rest.foldl (fun g c => List.zipWith Nat.gcd g (natCol df c)) (natCol df f0)).getD r 0
        = ((rest.map (natCol df)).map (fun c => c.getD r 0)).foldl Nat.gcd ((natCol df f0).getD r 0) := by
      rw [hfold, foldl_zipWith_gcd_getD (rest.map (natCol df)) (natCol df f0) r hrinit hcols]
      simp only [List.foldl_map]
    refine ⟨_, rfl, ?_, ?_, ?_⟩
    · rw [hfold]
      rw [foldl_zipWith_gcd_length (rest.map (natCol df)) (natCol df f0) hcols]
      exact hinit
    · intro c hc
      rw [hget]
      rcases List.mem_cons.mp hc with rfl | hcr
      · exact (foldl_gcd_dvd _ _).1
      · exact (foldl_gcd_dvd _ _).2 _ (by
          simp only [List.mem_map]
          exact ⟨natCol df c, ⟨c, hcr, rfl⟩, rfl⟩)
    · intro d hd
      rw [hget]
      refine dvd_foldl_gcd _ _ d (hd f0 (by simp)) ?_
      intro a ha
      simp only [List.mem_map] at ha
      obtain ⟨cvals, ⟨nm, hnm, rfl⟩, rfl⟩ := ha
      exact hd nm (by simp [hnm])

/-- Witness for C10 at a concrete two-column histogram frame: the row gcds
of `[4, 6]` and `[6, 9]` satisfy the full characterisation. -/
theorem gcd_of_all_correct_witness :
    ∃ g, gcd_of_all ["a", "b"] exNatFrame = some g
      ∧ g.length = 2
      ∧ (∀ c ∈ ["a", "b"], g.getD 0 0 ∣ (natCol exNatFrame c).getD 0 0)
      ∧ (∀ d : ℕ, (∀ c ∈ ["a", "b"], d ∣ (natCol exNatFrame c).getD 0 0) → d ∣ g.getD 0 0) :=
  gcd_of_all_correct ["a", "b"] exNatFrame 2 0 (by decide) (by decide) (by decide)

end TPS
